import Mathlib

/-!
Shallow embedding of the MyFitnessTrackingApp backend (src/backend/main.py,
src/backend/models.py, src/backend/schemas.py) and the composite write flows of
the Streamlit client (src/frontend/app.py).

Modelling conventions:
* `datetime` values are integers counting seconds (UTC); `DATE(t)` truncation is
  `t.ediv 86400` (floor division by the number of seconds in a day, matching
  Python `datetime.date()` for a positive divisor).
* SQL `Float` columns are modelled as `Rat` (idealised exact arithmetic).
* A database is a `Store` of rows; SQLAlchemy queries become list filters,
  joins become nested flat-maps, `GROUP BY d ORDER BY d ASC` becomes a sorted
  deduplicated list of keys with per-key aggregation.
* Fallible endpoints return `Except String`, the string being the HTTP detail.
-/

namespace Workoutify

/-- models.py `User` (users table). -/
structure User where
  user_id : Nat
  name : Option String
  surname : Option String
  email : String
  location : Option String
deriving Repr, DecidableEq

/-- models.py `Sleep` (sleep table). -/
structure Sleep where
  sleep_id : Nat
  user_id : Nat
  start_time : Int
  end_time : Int
  quality_score : Option Int
deriving Repr, DecidableEq

/-- models.py `Exercise` (exercises table, shared catalog). -/
structure Exercise where
  exercise_id : Nat
  exercise_name : String
  primary_muscle : Option String
  secondary_muscle : Option String
deriving Repr, DecidableEq

/-- models.py `Workout` (workouts table). -/
structure Workout where
  workout_id : Nat
  user_id : Nat
  start_time : Int
  end_time : Int
  label : Option String
deriving Repr, DecidableEq

/-- models.py `WorkoutSet` (workout_sets table). -/
structure WorkoutSet where
  set_id : Nat
  workout_id : Nat
  exercise_id : Nat
  num_reps : Int
  weight_amount : Rat
  set_order : Int
deriving Repr, DecidableEq

/-- models.py `Food` (foods table, shared catalog). -/
structure Food where
  food_id : Nat
  food_name : String
  calories : Rat
  carbs : Rat
  fats : Rat
  protein : Rat
  sugar : Rat
  category : String
  serving_size_grams : Rat
deriving Repr, DecidableEq

/-- models.py `Meal` (meals table). -/
structure Meal where
  meal_id : Nat
  user_id : Nat
  time_of_meal : Int
  meal_name : String
deriving Repr, DecidableEq

/-- models.py `MealItem` (meal_items table). -/
structure MealItem where
  meal_item_id : Nat
  meal_id : Nat
  food_id : Nat
  quantity : Rat
deriving Repr, DecidableEq

/-- The relational store: one list of rows per table of models.py. -/
structure Store where
  users : List User
  sleeps : List Sleep
  exercises : List Exercise
  workouts : List Workout
  workout_sets : List WorkoutSet
  foods : List Food
  meals : List Meal
  meal_items : List MealItem
deriving Repr, DecidableEq

/-- SQL `DATE(t)`: the calendar-day index of a timestamp (floor division by
86400 seconds, as Python `datetime.date()` on a UTC timestamp). -/
def dateOf (t : Int) : Int := t / 86400

/-- main.py:482 `cutoff_date = (datetime.utcnow() - timedelta(days=days)).date()`
combined with `datetime.min.time()` (main.py:490/521/558): midnight at the start
of the calendar day of `now - days`. -/
def cutoffDT (now : Int) (days : Int) : Int := 86400 * dateOf (now - 86400 * days)

/-- schemas.py `SleepSummaryEntry`. -/
structure SleepSummaryEntry where
  date : Int
  hours : Rat
  quality_score : Option Int
deriving Repr, DecidableEq

/-- schemas.py:205-208 `WorkoutsPerDay`: pydantic model with three REQUIRED
fields (no default for `total_weight`). -/
structure WorkoutsPerDay where
  date : Int
  count : Nat
  total_weight : Rat
deriving Repr, DecidableEq

/-- schemas.py `CaloriesPerDay`. -/
structure CaloriesPerDay where
  date : Int
  calories : Rat
  carbs : Rat
  fats : Rat
  protein : Rat
deriving Repr, DecidableEq

/-- schemas.py `UserSummary`. -/
structure UserSummary where
  sleep : List SleepSummaryEntry
  workouts_per_day : List WorkoutsPerDay
  calories_per_day : List CaloriesPerDay
deriving Repr, DecidableEq

/-- Pydantic construction of a `WorkoutsPerDay` (schemas.py:205-208): every
field without a default is required, so passing no `total_weight` raises a
`ValidationError` instead of building the model. -/
def mkWorkoutsPerDay (date : Int) (count : Nat) (total_weight : Option Rat) :
    Except String WorkoutsPerDay :=
  match total_weight with
  | some tw => .ok ⟨date, count, tw⟩
  | none => .error "ValidationError: field required: total_weight"

/-- Ordering of sleep rows used by `ORDER BY start_time ASC` (main.py:492). -/
def sleepLe (a b : Sleep) : Prop := a.start_time ≤ b.start_time

instance : DecidableRel sleepLe :=
  fun a b => inferInstanceAs (Decidable (a.start_time ≤ b.start_time))

instance : IsTotal Sleep sleepLe := ⟨fun a b => Int.le_total a.start_time b.start_time⟩

instance : IsTrans Sleep sleepLe := ⟨fun _ _ _ h1 h2 => le_trans h1 h2⟩

/-- main.py:486-494: `SELECT * FROM sleep WHERE user_id = :u AND start_time >= :c`. -/
def sleepFilter (db : Store) (uid : Nat) (c : Int) : List Sleep :=
  db.sleeps.filter (fun s => s.user_id == uid && decide (c ≤ s.start_time))

/-- The sleep rows of the summary query, ordered by `start_time ASC`. -/
def sleepRowsSorted (db : Store) (uid : Nat) (c : Int) : List Sleep :=
  List.insertionSort sleepLe (sleepFilter db uid c)

/-- main.py:497-505: one `SleepSummaryEntry` per sleep row, with
`hours = (end_time - start_time).total_seconds() / 3600.0`. -/
def sleepEntryOf (s : Sleep) : SleepSummaryEntry :=
  ⟨dateOf s.start_time, ((s.end_time - s.start_time : Int) : Rat) / 3600, s.quality_score⟩

/-- The sleep series of the dashboard summary (main.py:486-505). -/
def sleepSeriesFromRows (rows : List Sleep) : List SleepSummaryEntry :=
  (List.insertionSort sleepLe rows).map sleepEntryOf

/-- main.py:514-526 WHERE clause: `user_id = :u AND start_time >= :c`. -/
def workoutFilter (db : Store) (uid : Nat) (c : Int) : List Workout :=
  db.workouts.filter (fun w => w.user_id == uid && decide (c ≤ w.start_time))

/-- Insert a key into a strictly-ascending list, keeping it sorted and
duplicate-free: the semantics of a `GROUP BY k ORDER BY k ASC` key list. -/
def insertKey (a : Int) : List Int → List Int
  | [] => [a]
  | b :: l => if a < b then a :: b :: l else if a = b then b :: l else b :: insertKey a l

/-- The sorted list of distinct grouping keys of a `GROUP BY ... ORDER BY ASC`. -/
def groupKeys (l : List Int) : List Int := l.foldr insertKey []

/-- main.py:514-526: `GROUP BY DATE(start_time) ORDER BY DATE(start_time) ASC`
with `COUNT(workout_id)`: one `(date, count)` pair per distinct date. -/
def wpdPairs (rows : List Workout) : List (Int × Nat) :=
  (groupKeys (rows.map (fun w => dateOf w.start_time))).map
    (fun d => (d, (rows.filter (fun w => dateOf w.start_time == d)).length))

/-- main.py:528-531: the list comprehension
`[WorkoutsPerDay(date=row.date, count=row.count) for row in workout_rows]`;
each construction supplies NO `total_weight`, so pydantic raises on the first
row (the comprehension aborts with a `ValidationError`). -/
def buildWpd : List (Int × Nat) → Except String (List WorkoutsPerDay)
  | [] => .ok []
  | (d, n) :: rest =>
    match mkWorkoutsPerDay d n none with
    | .error e => .error e
    | .ok w =>
      match buildWpd rest with
      | .error e => .error e
      | .ok ws => .ok (w :: ws)

/-- A row of the `meals JOIN meal_items JOIN foods` query (main.py:546-562). -/
abbrev JoinRow : Type := Meal × MealItem × Food

/-- main.py:556-559 WHERE clause on meals: `user_id = :u AND time_of_meal >= :c`. -/
def mealsInWindow (db : Store) (uid : Nat) (c : Int) : List Meal :=
  db.meals.filter (fun m => m.user_id == uid && decide (c ≤ m.time_of_meal))

/-- The join rows contributed by one meal: its meal_items inner-joined with the
foods they reference (main.py:554-555). -/
def mealRows (db : Store) (m : Meal) : List JoinRow :=
  (db.meal_items.filter (fun mi => mi.meal_id == m.meal_id)).flatMap
    (fun mi => (db.foods.filter (fun f => f.food_id == mi.food_id)).map
      (fun f => (m, mi, f)))

/-- main.py:546-562: the full `meals JOIN meal_items JOIN foods` row set for a
user and cutoff. -/
def joinRows (db : Store) (uid : Nat) (c : Int) : List JoinRow :=
  (mealsInWindow db uid c).flatMap (mealRows db)

/-- SQL `SUM(...)` over a group: `NULL` (none) for an empty group, the sum
otherwise. -/
def sqlSum (l : List Rat) : Option Rat := if l.isEmpty then none else some l.sum

/-- Python `x or 0.0` applied to a nullable sum (main.py:568-571): `None`
becomes `0.0`; a number (including `0.0`) is returned unchanged. -/
def pyOr0 (o : Option Rat) : Rat := o.getD 0

/-- main.py:546-574: group the join rows by `DATE(time_of_meal)`, sum each
macro as `SUM(quantity * food.macro)`, null-coalesce to 0.0, order by date
ascending. -/
def caloriesFromRows (rows : List JoinRow) : List CaloriesPerDay :=
  (groupKeys (rows.map (fun r => dateOf r.1.time_of_meal))).map (fun d =>
    let grp := rows.filter (fun r => dateOf r.1.time_of_meal == d)
    { date := d
      calories := pyOr0 (sqlSum (grp.map (fun r => r.2.1.quantity * r.2.2.calories)))
      carbs := pyOr0 (sqlSum (grp.map (fun r => r.2.1.quantity * r.2.2.carbs)))
      fats := pyOr0 (sqlSum (grp.map (fun r => r.2.1.quantity * r.2.2.fats)))
      protein := pyOr0 (sqlSum (grp.map (fun r => r.2.1.quantity * r.2.2.protein))) })

/-- main.py:476-580 `user_summary`: the dashboard summary endpoint. Computes
the cutoff as midnight of `(now - days).date()`, then the three series. The
workouts-per-day comprehension constructs `WorkoutsPerDay` without the required
`total_weight` field, so the endpoint raises whenever it is non-empty. -/
def user_summary (db : Store) (uid : Nat) (now : Int) (days : Int) :
    Except String UserSummary :=
  let c := cutoffDT now days
  match buildWpd (wpdPairs (workoutFilter db uid c)) with
  | .error e => .error e
  | .ok wpd =>
    .ok { sleep := sleepSeriesFromRows (sleepFilter db uid c)
          workouts_per_day := wpd
          calories_per_day := caloriesFromRows (joinRows db uid c) }

/-! ## Write and delete operations -/

/-- Fresh autoincrement id for a table, given the ids already present. -/
def nextId (ids : List Nat) : Nat := ids.foldr max 0 + 1

/-- main.py:72-86 `login` (POST /users/login): look up by email; if absent,
create a row with the supplied optional fields; if present, return the existing
row with no modification. Returns the row and the (possibly updated) store. -/
def login (db : Store) (email : String) (name surname location : Option String) :
    User × Store :=
  match db.users.find? (fun u => u.email == email) with
  | some u => (u, db)
  | none =>
    let u : User := ⟨nextId (db.users.map (·.user_id)), name, surname, email, location⟩
    (u, { db with users := db.users ++ [u] })

/-- main.py:59-68 `delete_user` (DELETE /users/{user_id}): 404 when absent;
otherwise `db.delete(user)` with the ORM cascades of models.py:15-17 (sleeps,
workouts, meals are `cascade="all, delete-orphan"`), which transitively delete
each deleted workout's sets (models.py:55) and each deleted meal's items
(models.py:81). Split here into the cascade effect (`purgeUser`) and the
endpoint (`delete_user`). -/
def purgeUser (db : Store) (uid : Nat) : Store :=
  let wids := (db.workouts.filter (fun w => w.user_id == uid)).map (·.workout_id)
  let mids := (db.meals.filter (fun m => m.user_id == uid)).map (·.meal_id)
  { db with
    users := db.users.filter (fun u => u.user_id != uid)
    sleeps := db.sleeps.filter (fun s => s.user_id != uid)
    workouts := db.workouts.filter (fun w => w.user_id != uid)
    workout_sets := db.workout_sets.filter (fun ws => !(decide (ws.workout_id ∈ wids)))
    meals := db.meals.filter (fun m => m.user_id != uid)
    meal_items := db.meal_items.filter (fun mi => !(decide (mi.meal_id ∈ mids))) }

def delete_user (db : Store) (uid : Nat) : Except String Store :=
  match db.users.find? (fun u => u.user_id == uid) with
  | none => .error "User not found"
  | some _ => .ok (purgeUser db uid)

/-- main.py:319-328 `delete_food` (DELETE /foods/{food_id}): 404 when absent;
otherwise `db.delete(food)` with the ORM cascade of models.py:96
(`Food.meal_items` is `cascade="all, delete-orphan"`, and meal_items.food_id has
`ondelete="CASCADE"`), so every MealItem referencing the food is deleted too. -/
def delete_food (db : Store) (fid : Nat) : Except String Store :=
  match db.foods.find? (fun f => f.food_id == fid) with
  | none => .error "Food not found"
  | some _ =>
    .ok { db with
      foods := db.foods.filter (fun f => f.food_id != fid)
      meal_items := db.meal_items.filter (fun mi => mi.food_id != fid) }

/-- cli_app.py `delete_one` applied to the Exercises table: `db.delete(row)`
with the ORM cascade of models.py:41 (`Exercise.sets` is
`cascade="all, delete-orphan"`, and workout_sets.exercise_id has
`ondelete="CASCADE"`), so every WorkoutSet referencing the exercise is deleted
too; prints not-found when the id is absent. -/
def delete_exercise (db : Store) (eid : Nat) : Except String Store :=
  match db.exercises.find? (fun e => e.exercise_id == eid) with
  | none => .error "Exercise not found"
  | some _ =>
    .ok { db with
      exercises := db.exercises.filter (fun e => e.exercise_id != eid)
      workout_sets := db.workout_sets.filter (fun ws => ws.exercise_id != eid) }

/-- main.py:159-177 `create_workout` (POST /workouts): 404 when the user is
absent; otherwise insert the workout (with no sets) and return it. -/
def create_workout (db : Store) (uid : Nat) (st en : Int) (label : Option String) :
    Except String (Workout × Store) :=
  if db.users.any (fun u => u.user_id == uid) then
    let w : Workout := ⟨nextId (db.workouts.map (·.workout_id)), uid, st, en, label⟩
    .ok (w, { db with workouts := db.workouts ++ [w] })
  else .error "User not found"

/-- Payload of one set in the frontend workout form (app.py:507-514). -/
structure SetInput where
  exercise_id : Nat
  num_reps : Int
  weight_amount : Rat
  set_order : Int
deriving Repr, DecidableEq

/-- main.py:194-216 `create_workout_set` (POST /workout_sets): 404 when the
workout or the exercise is absent; otherwise insert the set. -/
def create_workout_set (db : Store) (wid : Nat) (s : SetInput) :
    Except String (WorkoutSet × Store) :=
  if db.workouts.any (fun w => w.workout_id == wid) then
    if db.exercises.any (fun e => e.exercise_id == s.exercise_id) then
      let ws : WorkoutSet := ⟨nextId (db.workout_sets.map (·.set_id)), wid,
        s.exercise_id, s.num_reps, s.weight_amount, s.set_order⟩
      .ok (ws, { db with workout_sets := db.workout_sets ++ [ws] })
    else .error "Exercise not found"
  else .error "Workout not found"

/-- app.py:551-576: post the sets one request at a time, stopping at the first
failure (`all_ok = False; break`); earlier inserts are NOT rolled back. -/
def postSets (db : Store) (wid : Nat) : List SetInput → Store × Bool
  | [] => (db, true)
  | s :: rest =>
    match create_workout_set db wid s with
    | .ok (_, db1) => postSets db1 wid rest
    | .error _ => (db, false)

/-- app.py:518-580 "Save workout": reject an empty label; create the Workout
via POST /workouts; then create each set via POST /workout_sets, breaking on the
first failure. The already-created Workout (and earlier sets) stay persisted. -/
def workout_form_save (db : Store) (uid : Nat) (st en : Int) (label : String)
    (sets : List SetInput) : Store × Bool :=
  if label == "" then (db, false)
  else
    match create_workout db uid st en (some label) with
    | .error _ => (db, false)
    | .ok (w, db1) => postSets db1 w.workout_id sets

/-- main.py:358-375 `create_meal` (POST /meals): 404 when the user is absent;
otherwise insert the meal (with no items) and return it. -/
def create_meal (db : Store) (uid : Nat) (t : Int) (name : String) :
    Except String (Meal × Store) :=
  if db.users.any (fun u => u.user_id == uid) then
    let m : Meal := ⟨nextId (db.meals.map (·.meal_id)), uid, t, name⟩
    .ok (m, { db with meals := db.meals ++ [m] })
  else .error "User not found"

/-- Payload of one item in the frontend meal form (app.py:663-668). -/
structure ItemInput where
  food_id : Nat
  quantity : Rat
deriving Repr, DecidableEq

/-- main.py:392-413 `create_meal_item` (POST /meal_items): 404 when the meal or
the food is absent; otherwise insert the item. -/
def create_meal_item (db : Store) (mid : Nat) (it : ItemInput) :
    Except String (MealItem × Store) :=
  if db.meals.any (fun m => m.meal_id == mid) then
    if db.foods.any (fun f => f.food_id == it.food_id) then
      let mi : MealItem := ⟨nextId (db.meal_items.map (·.meal_item_id)), mid,
        it.food_id, it.quantity⟩
      .ok (mi, { db with meal_items := db.meal_items ++ [mi] })
    else .error "Food not found"
  else .error "Meal not found"

/-- app.py:704-727: post the meal items one request at a time, stopping at the
first failure; earlier inserts are NOT rolled back. -/
def postItems (db : Store) (mid : Nat) : List ItemInput → Store × Bool
  | [] => (db, true)
  | it :: rest =>
    match create_meal_item db mid it with
    | .ok (_, db1) => postItems db1 mid rest
    | .error _ => (db, false)

/-- app.py:672-731 "Save meal": reject an empty name; create the Meal via
POST /meals; then create each item via POST /meal_items, breaking on the first
failure. The already-created Meal (and earlier items) stay persisted. -/
def meal_form_save (db : Store) (uid : Nat) (t : Int) (name : String)
    (items : List ItemInput) : Store × Bool :=
  if name == "" then (db, false)
  else
    match create_meal db uid t name with
    | .error _ => (db, false)
    | .ok (m, db1) => postItems db1 m.meal_id items

/-! ## Generic list lemmas used by the claim proofs -/

theorem filter_and_split {α : Type} (p q : α → Bool) (l : List α) :
    l.filter (fun a => p a && q a) = (l.filter p).filter q := by
  induction l with
  | nil => rfl
  | cons a l ih =>
    by_cases hp : p a <;> by_cases hq : q a <;>
      simp [List.filter_cons, hp, hq, ih]

theorem filter_and_congr {α : Type} (p q : α → Bool) (l1 l2 : List α)
    (h : l1.filter p = l2.filter p) :
    l1.filter (fun a => p a && q a) = l2.filter (fun a => p a && q a) := by
  rw [filter_and_split, filter_and_split, h]

theorem flatMap_congr {α β : Type} (l : List α) (f g : α → List β)
    (h : ∀ a ∈ l, f a = g a) : l.flatMap f = l.flatMap g := by
  induction l with
  | nil => rfl
  | cons a l ih =>
    rw [List.flatMap_cons, List.flatMap_cons, h a (by simp),
      ih (fun a ha => h a (by simp [ha]))]

theorem mem_insertKey (a x : Int) (l : List Int) :
    x ∈ insertKey a l ↔ x = a ∨ x ∈ l := by
  induction l with
  | nil => simp [insertKey]
  | cons b l ih =>
    by_cases h1 : a < b
    · simp [insertKey, h1]
    · by_cases h2 : a = b
      · subst h2; simp [insertKey, h1]
      · simp [insertKey, h1, h2, ih]
        constructor
        · rintro (h | h) <;> tauto
        · rintro (h | h | h) <;> tauto

theorem pairwise_insertKey (a : Int) (l : List Int)
    (h : l.Pairwise (· < ·)) : (insertKey a l).Pairwise (· < ·) := by
  induction l with
  | nil => simp [insertKey]
  | cons b l ih =>
    rw [List.pairwise_cons] at h
    by_cases h1 : a < b
    · rw [insertKey]
      simp only [if_pos h1]
      rw [List.pairwise_cons]
      refine ⟨?_, List.pairwise_cons.mpr h⟩
      intro x hx
      rcases List.mem_cons.mp hx with hx | hx
      · subst hx; exact h1
      · exact lt_trans h1 (h.1 x hx)
    · by_cases h2 : a = b
      · rw [insertKey]
        simp only [if_neg h1, if_pos h2]
        exact List.pairwise_cons.mpr h
      · rw [insertKey]
        simp only [if_neg h1, if_neg h2]
        rw [List.pairwise_cons]
        constructor
        · intro x hx
          rcases (mem_insertKey a x l).mp hx with hx | hx
          · subst hx
            exact lt_of_le_of_ne (not_lt.mp h1) (Ne.symm h2)
          · exact h.1 x hx
        · exact ih h.2

theorem mem_groupKeys (x : Int) (l : List Int) :
    x ∈ groupKeys l ↔ x ∈ l := by
  induction l with
  | nil => simp [groupKeys]
  | cons a l ih =>
    show x ∈ insertKey a (groupKeys l) ↔ _
    rw [mem_insertKey, ih]
    simp

theorem pairwise_groupKeys (l : List Int) : (groupKeys l).Pairwise (· < ·) := by
  induction l with
  | nil => exact List.Pairwise.nil
  | cons a l ih => exact pairwise_insertKey a (groupKeys l) ih

theorem sum_map_flatMap {α β : Type} (l : List α) (f : α → List β) (g : β → Rat) :
    ((l.flatMap f).map g).sum = (l.map (fun a => ((f a).map g).sum)).sum := by
  induction l with
  | nil => rfl
  | cons a l ih =>
    rw [List.flatMap_cons, List.map_append, List.sum_append, ih, List.map_cons,
      List.sum_cons]

theorem filter_flatMap {α β : Type} (l : List α) (f : α → List β) (p : β → Bool) :
    (l.flatMap f).filter p = l.flatMap (fun a => (f a).filter p) := by
  induction l with
  | nil => rfl
  | cons a l ih =>
    rw [List.flatMap_cons, List.flatMap_cons, List.filter_append, ih]

theorem filter_const {α : Type} (L : List α) (p : α → Bool) (b : Bool)
    (h : ∀ r ∈ L, p r = b) : L.filter p = if b then L else [] := by
  induction L with
  | nil => cases b <;> simp
  | cons a L ih =>
    have ha := h a (by simp)
    have := ih (fun r hr => h r (by simp [hr]))
    cases b <;> simp_all [List.filter_cons]

theorem flatMap_ite {α β : Type} (l : List α) (q : α → Bool) (f : α → List β) :
    (l.flatMap fun a => if q a then f a else []) = (l.filter q).flatMap f := by
  induction l with
  | nil => rfl
  | cons a l ih =>
    by_cases h : q a <;>
      simp [List.flatMap_cons, List.filter_cons, h, ih]

/-! ## Facts about the aggregation engine -/

theorem pyOr0_sqlSum (l : List Rat) : pyOr0 (sqlSum l) = l.sum := by
  cases l <;> simp [sqlSum, pyOr0]

theorem fst_mealRows (db : Store) (m : Meal) (r : JoinRow)
    (hr : r ∈ mealRows db m) : r.1 = m := by
  rw [mealRows] at hr
  rw [List.mem_flatMap] at hr
  obtain ⟨mi, _, hr⟩ := hr
  rw [List.mem_map] at hr
  obtain ⟨f, _, hr⟩ := hr
  rw [← hr]

/-- Restricting the join to one calendar date is the same as restricting the
meals to that date first (the grouping key depends only on the meal). -/
theorem group_split (db : Store) (uid : Nat) (c d : Int) :
    (joinRows db uid c).filter (fun r => dateOf r.1.time_of_meal == d) =
    ((mealsInWindow db uid c).filter (fun m => dateOf m.time_of_meal == d)).flatMap
      (mealRows db) := by
  rw [joinRows, filter_flatMap, ← flatMap_ite]
  apply flatMap_congr
  intro m _
  have h := filter_const (mealRows db m) (fun r => dateOf r.1.time_of_meal == d)
    (dateOf m.time_of_meal == d) ?_
  · exact h
  · intro r hr
    show (dateOf r.1.time_of_meal == d) = (dateOf m.time_of_meal == d)
    rw [fst_mealRows db m r hr]

/-- The spec's per-item food lookup: the selected macro summed over catalog rows
carrying the referenced id — the unique matching Food's value when food ids are
unique, and zero when the item's food is absent (matching the inner join, which
drops such items). -/
def foodMacro (db : Store) (fid : Nat) (sel : Food → Rat) : Rat :=
  ((db.foods.filter (fun f => f.food_id == fid)).map sel).sum

/-- The spec's formula for one date's macro total: the sum over all items of all
in-window meals of that date of `quantity × per-serving macro` (spec.md §4.4
item 3 and §8). -/
def specDayMacro (db : Store) (uid : Nat) (c d : Int) (sel : Food → Rat) : Rat :=
  (((mealsInWindow db uid c).filter (fun m => dateOf m.time_of_meal == d)).map
    (fun m => ((db.meal_items.filter (fun mi => mi.meal_id == m.meal_id)).map
      (fun mi => mi.quantity * foodMacro db mi.food_id sel)).sum)).sum

theorem mealRows_sum (db : Store) (m : Meal) (sel : Food → Rat) :
    ((mealRows db m).map (fun r => r.2.1.quantity * sel r.2.2)).sum =
    ((db.meal_items.filter (fun mi => mi.meal_id == m.meal_id)).map
      (fun mi => mi.quantity * foodMacro db mi.food_id sel)).sum := by
  rw [mealRows, sum_map_flatMap]
  congr 1
  apply List.map_congr_left
  intro mi _
  rw [List.map_map]
  have : ((fun r : JoinRow => r.2.1.quantity * sel r.2.2) ∘ fun f => (m, mi, f)) =
      fun f => mi.quantity * sel f := rfl
  rw [this, foodMacro, List.sum_map_mul_left]

/-- The SQL group sum over one date equals the spec's nested per-meal,
per-item sum. -/
theorem grp_sum (db : Store) (uid : Nat) (c d : Int) (sel : Food → Rat) :
    (((joinRows db uid c).filter (fun r => dateOf r.1.time_of_meal == d)).map
      (fun r => r.2.1.quantity * sel r.2.2)).sum = specDayMacro db uid c d sel := by
  rw [group_split, sum_map_flatMap, specDayMacro]
  congr 1
  apply List.map_congr_left
  intro m _
  exact mealRows_sum db m sel

/-! ## Concrete stores used by counterexamples and witnesses -/

/-- A sleep row starting exactly at midnight of day 3. -/
def c3sleep : Sleep := ⟨1, 1, 3 * 86400, 3 * 86400 + 25200, some 7⟩

/-- A store with one user and the boundary-day sleep row. -/
def c3store : Store :=
  ⟨[⟨1, some "Ada", some "L", "ada@example.com", none⟩], [c3sleep],
    [], [], [], [], [], []⟩

/-- An instant one hour past midnight of day 10. -/
def c3now : Int := 10 * 86400 + 3600

/-- A store with one user and one workout inside the 7-day window before
`c3now` (started one hour into day 9). -/
def c1store : Store :=
  ⟨[⟨1, some "Ada", some "L", "ada@example.com", none⟩], [], [],
    [⟨1, 1, 9 * 86400 + 3600, 9 * 86400 + 7200, some "Push"⟩], [], [], [], []⟩

/-- A store whose rows all belong to user 2; user 1 does not exist. -/
def c8store : Store :=
  ⟨[⟨2, none, none, "bob@example.com", none⟩],
    [⟨1, 2, 9 * 86400, 9 * 86400 + 28800, some 8⟩], [],
    [⟨1, 2, 9 * 86400 + 3600, 9 * 86400 + 7200, none⟩], [], [],
    [⟨1, 2, 9 * 86400 + 43200, "Lunch"⟩], []⟩

/-! ## Claim theorems -/

/-- C1: the claim says each workouts-per-day row carries both `count` and
`total_weight` = Σ reps × weight. The code's comprehension (main.py:528-531)
constructs `WorkoutsPerDay` with only `date` and `count`, while the declared
response schema (schemas.py:205-208) requires `total_weight`; pydantic
therefore raises a ValidationError, so on a store with one in-window workout
the summary endpoint fails instead of emitting the series — `total_weight` is
never computed anywhere. The grouped `(date, count)` pairs themselves are
correct before the construction aborts. -/
theorem summary_total_weight_bug :
    wpdPairs (workoutFilter c1store 1 (cutoffDT c3now 7)) = [(9, 1)] ∧
    user_summary c1store 1 c3now 7 =
      .error "ValidationError: field required: total_weight" := by
  exact ⟨rfl, rfl⟩

/-- C8: when the requested user id exists nowhere in a referentially intact
store (every sleep/workout/meal row's `user_id` names an existing user), the
dashboard summary returns three empty series and does not fail: the aggregation
performs no existence check of its own, every per-user filter simply comes back
empty. -/
theorem unknown_user_empty_summary (db : Store) (uid : Nat) (now days : Int)
    (hs : ∀ s ∈ db.sleeps, ∃ u ∈ db.users, u.user_id = s.user_id)
    (hw : ∀ w ∈ db.workouts, ∃ u ∈ db.users, u.user_id = w.user_id)
    (hm : ∀ m ∈ db.meals, ∃ u ∈ db.users, u.user_id = m.user_id)
    (h : ∀ u ∈ db.users, u.user_id ≠ uid) :
    user_summary db uid now days = .ok ⟨[], [], []⟩ := by
  have hsf : sleepFilter db uid (cutoffDT now days) = [] := by
    rw [sleepFilter, List.filter_eq_nil_iff]
    intro s hsm
    simp only [Bool.and_eq_true, beq_iff_eq, decide_eq_true_eq, not_and]
    intro he _
    obtain ⟨u, hu, hup⟩ := hs s hsm
    exact h u hu (hup.trans he)
  have hwf : workoutFilter db uid (cutoffDT now days) = [] := by
    rw [workoutFilter, List.filter_eq_nil_iff]
    intro w hwm
    simp only [Bool.and_eq_true, beq_iff_eq, decide_eq_true_eq, not_and]
    intro he _
    obtain ⟨u, hu, hup⟩ := hw w hwm
    exact h u hu (hup.trans he)
  have hmf : mealsInWindow db uid (cutoffDT now days) = [] := by
    rw [mealsInWindow, List.filter_eq_nil_iff]
    intro m hmm
    simp only [Bool.and_eq_true, beq_iff_eq, decide_eq_true_eq, not_and]
    intro he _
    obtain ⟨u, hu, hup⟩ := hm m hmm
    exact h u hu (hup.trans he)
  have hj : joinRows db uid (cutoffDT now days) = [] := by
    rw [joinRows, hmf]; rfl
  rw [user_summary, hsf, hwf, hj]
  rfl

/-- C8 witness: user 1 is absent from `c8store` (whose rows all belong to
user 2), and the summary returns three empty series. -/
theorem unknown_user_empty_summary_witness :
    user_summary c8store 1 c3now 7 = .ok ⟨[], [], []⟩ :=
  unknown_user_empty_summary c8store 1 c3now 7 (by decide) (by decide)
    (by decide) (by decide)

/-- C9: login-or-register. If the email is already present, the pre-existing
row is returned and the store is unchanged — the supplied name, surname and
location are ignored, no stored field is modified. If the email is absent, a
new User with the given optional fields is appended. -/
theorem login_or_register (db : Store) (email : String)
    (name surname location : Option String) :
    ((∃ u ∈ db.users, u.email = email) →
      ∃ u, db.users.find? (fun x => x.email == email) = some u ∧ u ∈ db.users ∧
        login db email name surname location = (u, db)) ∧
    ((∀ u ∈ db.users, u.email ≠ email) →
      login db email name surname location =
        (⟨nextId (db.users.map (·.user_id)), name, surname, email, location⟩,
         { db with users := db.users ++
            [⟨nextId (db.users.map (·.user_id)), name, surname, email, location⟩] })) := by
  constructor
  · rintro ⟨u0, hu0, he⟩
    have hsome : (db.users.find? (fun x => x.email == email)).isSome :=
      List.find?_isSome.mpr ⟨u0, hu0, by simp [he]⟩
    obtain ⟨u, hu⟩ := Option.isSome_iff_exists.mp hsome
    refine ⟨u, hu, List.mem_of_find?_eq_some hu, ?_⟩
    rw [login, hu]
  · intro h
    have hn : db.users.find? (fun x => x.email == email) = none :=
      List.find?_eq_none.mpr (fun a ha => by simp [h a ha])
    rw [login, hn]

/-- A store with one user whose email is `ada@example.com`. -/
def c9store : Store :=
  ⟨[⟨1, some "Ada", some "L", "ada@example.com", some "Paris"⟩],
    [], [], [], [], [], [], []⟩

/-- C9 witness: a repeat login with different name/surname/location returns the
stored row verbatim and leaves the store unchanged; a fresh email creates a
row. -/
theorem login_or_register_witness :
    (∃ u, c9store.users.find? (fun x => x.email == "ada@example.com") = some u ∧
      u ∈ c9store.users ∧
      login c9store "ada@example.com" (some "Other") (some "Name") none = (u, c9store)) ∧
    login c9store "bob@example.com" (some "Bob") none none =
      (⟨2, some "Bob", none, "bob@example.com", none⟩,
       { c9store with users := c9store.users ++
          [⟨2, some "Bob", none, "bob@example.com", none⟩] }) := by
  constructor
  · exact (login_or_register c9store "ada@example.com" (some "Other") (some "Name")
      none).1 ⟨⟨1, some "Ada", some "L", "ada@example.com", some "Paris"⟩, by decide, rfl⟩
  · exact (login_or_register c9store "bob@example.com" (some "Bob") none none).2
      (by decide)

/-- C7: deleting a User removes, transitively, every row the user owns: their
sleeps, their workouts together with those workouts' sets, and their meals
together with those meals' items; lookups of any of them in the resulting store
find nothing, the shared catalogs are untouched, and deleting a nonexistent
user id fails with NotFound. -/
theorem delete_user_cascades (db : Store) (uid : Nat) :
    ((∃ u ∈ db.users, u.user_id = uid) →
      ∃ db2, delete_user db uid = .ok db2 ∧
        (∀ u ∈ db2.users, u.user_id ≠ uid) ∧
        (∀ s ∈ db2.sleeps, s.user_id ≠ uid) ∧
        (∀ w ∈ db2.workouts, w.user_id ≠ uid) ∧
        (∀ m ∈ db2.meals, m.user_id ≠ uid) ∧
        (∀ ws ∈ db2.workout_sets, ∀ w ∈ db.workouts,
          w.user_id = uid → ws.workout_id ≠ w.workout_id) ∧
        (∀ mi ∈ db2.meal_items, ∀ m ∈ db.meals,
          m.user_id = uid → mi.meal_id ≠ m.meal_id) ∧
        db2.exercises = db.exercises ∧ db2.foods = db.foods) ∧
    ((∀ u ∈ db.users, u.user_id ≠ uid) →
      delete_user db uid = .error "User not found") := by
  constructor
  · rintro ⟨u0, hu0, he⟩
    have hsome : (db.users.find? (fun u => u.user_id == uid)).isSome :=
      List.find?_isSome.mpr ⟨u0, hu0, by simp [he]⟩
    obtain ⟨uu, huu⟩ := Option.isSome_iff_exists.mp hsome
    have hres : delete_user db uid = .ok (purgeUser db uid) := by
      rw [delete_user, huu]
    refine ⟨purgeUser db uid, hres, ?_, ?_, ?_, ?_, ?_, ?_, rfl, rfl⟩
    · intro u hu
      have := List.of_mem_filter hu
      simpa using this
    · intro s hsm
      have := List.of_mem_filter hsm
      simpa using this
    · intro w hwm
      have := List.of_mem_filter hwm
      simpa using this
    · intro m hmm
      have := List.of_mem_filter hmm
      simpa using this
    · intro ws hws w hw hwu heq
      have hnc := List.of_mem_filter hws
      simp only [Bool.not_eq_true', decide_eq_false_iff_not] at hnc
      exact hnc (List.mem_map.mpr
        ⟨w, List.mem_filter.mpr ⟨hw, by simp [hwu]⟩, heq.symm⟩)
    · intro mi hmi m hm hmu heq
      have hnc := List.of_mem_filter hmi
      simp only [Bool.not_eq_true', decide_eq_false_iff_not] at hnc
      exact hnc (List.mem_map.mpr
        ⟨m, List.mem_filter.mpr ⟨hm, by simp [hmu]⟩, heq.symm⟩)
  · intro h
    have hn : db.users.find? (fun u => u.user_id == uid) = none :=
      List.find?_eq_none.mpr (fun a ha => by simp [h a ha])
    rw [delete_user, hn]

/-- A store where user 1 owns one sleep, one workout (id 5) with a set, and one
meal (id 9) with an item; catalogs each hold one row. -/
def c7store : Store :=
  ⟨[⟨1, some "Ada", some "L", "ada@example.com", none⟩],
    [⟨1, 1, 0, 28800, some 7⟩],
    [⟨1, "Bench Press", some "chest", none⟩],
    [⟨5, 1, 3600, 7200, some "Push"⟩],
    [⟨1, 5, 1, 8, 100, 1⟩],
    [⟨1, "Chicken Breast", 165, 0, 4, 31, 0, "protein", 100⟩],
    [⟨9, 1, 43200, "Lunch"⟩],
    [⟨1, 9, 1, 2⟩]⟩

/-- C7 witness: deleting user 1 from `c7store` succeeds and leaves no sleep,
workout, set, meal or item owned by them; deleting id 99 fails with
NotFound. -/
theorem delete_user_cascades_witness :
    (∃ db2, delete_user c7store 1 = Except.ok db2 ∧
      (∀ s ∈ db2.sleeps, s.user_id ≠ 1) ∧
      (∀ ws ∈ db2.workout_sets, ∀ w ∈ c7store.workouts,
        w.user_id = 1 → ws.workout_id ≠ w.workout_id) ∧
      (∀ mi ∈ db2.meal_items, ∀ m ∈ c7store.meals,
        m.user_id = 1 → mi.meal_id ≠ m.meal_id)) ∧
    delete_user c7store 99 = Except.error "User not found" := by
  constructor
  · obtain ⟨db2, h1, _, h3, _, _, h6, h7, _⟩ :=
      (delete_user_cascades c7store 1).1
        ⟨⟨1, some "Ada", some "L", "ada@example.com", none⟩, by decide, rfl⟩
    exact ⟨db2, h1, h3, h6, h7⟩
  · exact (delete_user_cascades c7store 99).2 (by decide)

/-- A store where user 2 owns a meal with an item referencing food 1, and a
workout set references exercise 1. -/
def c4store : Store :=
  ⟨[⟨2, none, none, "bob@example.com", none⟩], [],
    [⟨1, "Bench Press", some "chest", none⟩], [],
    [⟨1, 1, 1, 8, 100, 1⟩],
    [⟨1, "Chicken Breast", 165, 0, 4, 31, 0, "protein", 100⟩],
    [⟨1, 2, 0, "Lunch"⟩],
    [⟨1, 1, 1, 2⟩]⟩

/-- C4 counterexample: the claim says a catalog delete either leaves the
referencing items orphaned-but-alive or is refused. In `c4store`, user 2's
meal item references food 1; deleting food 1 succeeds AND silently deletes
that meal item (the ORM cascade of models.py:96), so the referencing item
neither survives nor is the deletion refused. -/
theorem catalog_delete_cex :
    c4store.meal_items = [⟨1, 1, 1, 2⟩] ∧
    delete_food c4store 1 = .ok { c4store with foods := [], meal_items := [] } := by
  exact ⟨rfl, rfl⟩

/-- C4 amended: deleting an existing Food always succeeds and silently
cascades — every MealItem referencing it (whoever owns the parent meal) is
deleted alongside, items referencing other foods survive, and every other
table is untouched; symmetrically for an Exercise and the WorkoutSets
referencing it; deleting an absent catalog id fails with NotFound. -/
theorem catalog_delete_cascades (db : Store) (fid eid : Nat) :
    ((∃ f ∈ db.foods, f.food_id = fid) →
      ∃ db2, delete_food db fid = .ok db2 ∧
        (∀ f ∈ db2.foods, f.food_id ≠ fid) ∧
        (∀ mi ∈ db2.meal_items, mi.food_id ≠ fid) ∧
        (∀ mi ∈ db.meal_items, mi.food_id = fid → mi ∉ db2.meal_items) ∧
        (∀ mi ∈ db.meal_items, mi.food_id ≠ fid → mi ∈ db2.meal_items) ∧
        db2.users = db.users ∧ db2.sleeps = db.sleeps ∧
        db2.exercises = db.exercises ∧ db2.workouts = db.workouts ∧
        db2.workout_sets = db.workout_sets ∧ db2.meals = db.meals) ∧
    ((∀ f ∈ db.foods, f.food_id ≠ fid) →
      delete_food db fid = .error "Food not found") ∧
    ((∃ e ∈ db.exercises, e.exercise_id = eid) →
      ∃ db2, delete_exercise db eid = .ok db2 ∧
        (∀ ws ∈ db2.workout_sets, ws.exercise_id ≠ eid) ∧
        (∀ ws ∈ db.workout_sets, ws.exercise_id = eid → ws ∉ db2.workout_sets) ∧
        (∀ ws ∈ db.workout_sets, ws.exercise_id ≠ eid → ws ∈ db2.workout_sets) ∧
        db2.meal_items = db.meal_items ∧ db2.workouts = db.workouts) ∧
    ((∀ e ∈ db.exercises, e.exercise_id ≠ eid) →
      delete_exercise db eid = .error "Exercise not found") := by
  refine ⟨?_, ?_, ?_, ?_⟩
  · rintro ⟨f0, hf0, hfe⟩
    have hsome : (db.foods.find? (fun f => f.food_id == fid)).isSome :=
      List.find?_isSome.mpr ⟨f0, hf0, by simp [hfe]⟩
    obtain ⟨ff, hff⟩ := Option.isSome_iff_exists.mp hsome
    have hres : delete_food db fid = .ok
        { db with foods := db.foods.filter (fun f => f.food_id != fid)
                  meal_items := db.meal_items.filter (fun mi => mi.food_id != fid) } := by
      rw [delete_food, hff]
    refine ⟨_, hres, ?_, ?_, ?_, ?_, rfl, rfl, rfl, rfl, rfl, rfl⟩
    · intro f hf
      have := List.of_mem_filter hf
      simpa using this
    · intro mi hmi
      have := List.of_mem_filter hmi
      simpa using this
    · intro mi _ heq hmem
      have := List.of_mem_filter hmem
      simp [heq] at this
    · intro mi hmi hne
      exact List.mem_filter.mpr ⟨hmi, by simp [hne]⟩
  · intro h
    have hn : db.foods.find? (fun f => f.food_id == fid) = none :=
      List.find?_eq_none.mpr (fun a ha => by simp [h a ha])
    rw [delete_food, hn]
  · rintro ⟨e0, he0, hee⟩
    have hsome : (db.exercises.find? (fun e => e.exercise_id == eid)).isSome :=
      List.find?_isSome.mpr ⟨e0, he0, by simp [hee]⟩
    obtain ⟨ee, hle⟩ := Option.isSome_iff_exists.mp hsome
    have hres : delete_exercise db eid = .ok
        { db with exercises := db.exercises.filter (fun e => e.exercise_id != eid)
                  workout_sets := db.workout_sets.filter (fun ws => ws.exercise_id != eid) } := by
      rw [delete_exercise, hle]
    refine ⟨_, hres, ?_, ?_, ?_, rfl, rfl⟩
    · intro ws hws
      have := List.of_mem_filter hws
      simpa using this
    · intro ws _ heq hmem
      have := List.of_mem_filter hmem
      simp [heq] at this
    · intro ws hws hne
      exact List.mem_filter.mpr ⟨hws, by simp [hne]⟩
  · intro h
    have hn : db.exercises.find? (fun e => e.exercise_id == eid) = none :=
      List.find?_eq_none.mpr (fun a ha => by simp [h a ha])
    rw [delete_exercise, hn]

/-- C4 amended witness: in `c4store`, deleting food 1 removes the referencing
meal item, and deleting exercise 1 removes the referencing workout set. -/
theorem catalog_delete_cascades_witness :
    (∃ db2, delete_food c4store 1 = Except.ok db2 ∧
      (∀ mi ∈ db2.meal_items, mi.food_id ≠ 1)) ∧
    (∃ db2, delete_exercise c4store 1 = Except.ok db2 ∧
      (∀ ws ∈ db2.workout_sets, ws.exercise_id ≠ 1)) ∧
    delete_food c4store 77 = Except.error "Food not found" := by
  refine ⟨?_, ?_, ?_⟩
  · obtain ⟨db2, h1, _, h3, _⟩ := (catalog_delete_cascades c4store 1 1).1
      ⟨⟨1, "Chicken Breast", 165, 0, 4, 31, 0, "protein", 100⟩, by decide, rfl⟩
    exact ⟨db2, h1, h3⟩
  · obtain ⟨db2, h1, h2, _⟩ := (catalog_delete_cascades c4store 1 1).2.2.1
      ⟨⟨1, "Bench Press", some "chest", none⟩, by decide, rfl⟩
    exact ⟨db2, h1, h2⟩
  · exact (catalog_delete_cascades c4store 77 1).2.1 (by decide)

/-- A store with one user and empty catalogs: every exercise or food id is
dangling. -/
def c2store : Store :=
  ⟨[⟨1, some "Ada", some "L", "ada@example.com", none⟩],
    [], [], [], [], [], [], []⟩

/-- C2 counterexample: the claim says that when any set references a
nonexistent Exercise, the whole workout-with-sets create fails with zero rows
persisted. Saving a workout whose only set references exercise 5 (absent from
`c2store`) reports failure, persists no set — but one full Workout row IS
persisted, because the client creates the Workout first (app.py:531-543) and
the failing POST /workout_sets (main.py:202-204) rolls nothing back. -/
theorem workout_atomicity_cex :
    (workout_form_save c2store 1 0 3600 "Push" [⟨5, 8, 100, 1⟩]).1.workouts =
      [⟨1, 1, 0, 3600, some "Push"⟩] ∧
    (workout_form_save c2store 1 0 3600 "Push" [⟨5, 8, 100, 1⟩]).1.workout_sets = [] ∧
    (workout_form_save c2store 1 0 3600 "Push" [⟨5, 8, 100, 1⟩]).2 = false := by
  exact ⟨rfl, rfl, rfl⟩

theorem postSets_cons_err (db : Store) (wid : Nat) (s : SetInput)
    (rest : List SetInput) (e : String)
    (h : create_workout_set db wid s = .error e) :
    postSets db wid (s :: rest) = (db, false) := by
  simp only [postSets, h]

theorem postItems_cons_err (db : Store) (mid : Nat) (it : ItemInput)
    (rest : List ItemInput) (e : String)
    (h : create_meal_item db mid it = .error e) :
    postItems db mid (it :: rest) = (db, false) := by
  simp only [postItems, h]

/-- C2 amended: the workout-with-sets flow is sequential, not atomic. For an
existing user and a non-empty label, when the FIRST set references a
nonexistent Exercise the flow reports failure and persists no WorkoutSet, but
the freshly created Workout row remains in the store; likewise the
meal-with-items flow keyed on Food existence leaves the freshly created Meal
row persisted when its first item's Food does not exist. -/
theorem composite_create_not_atomic (db : Store) (uid : Nat) (st en t : Int)
    (label mname : String) (s : SetInput) (sets : List SetInput)
    (it : ItemInput) (items : List ItemInput)
    (hu : ∃ u ∈ db.users, u.user_id = uid)
    (hlabel : label ≠ "") (hmname : mname ≠ "")
    (hex : ∀ e ∈ db.exercises, e.exercise_id ≠ s.exercise_id)
    (hfo : ∀ f ∈ db.foods, f.food_id ≠ it.food_id) :
    workout_form_save db uid st en label (s :: sets) =
      ({ db with workouts := db.workouts ++
          [⟨nextId (db.workouts.map (·.workout_id)), uid, st, en, some label⟩] },
        false) ∧
    meal_form_save db uid t mname (it :: items) =
      ({ db with meals := db.meals ++
          [⟨nextId (db.meals.map (·.meal_id)), uid, t, mname⟩] }, false) := by
  obtain ⟨u0, hu0, hue⟩ := hu
  have huany : (db.users.any fun u => u.user_id == uid) = true :=
    List.any_eq_true.mpr ⟨u0, hu0, by simp [hue]⟩
  constructor
  · have hlb : ¬((label == "") = true) := by simp [hlabel]
    have hcw : create_workout db uid st en (some label) =
        .ok (⟨nextId (db.workouts.map (·.workout_id)), uid, st, en, some label⟩,
          { db with workouts := db.workouts ++
            [⟨nextId (db.workouts.map (·.workout_id)), uid, st, en, some label⟩] }) := by
      rw [create_workout, if_pos huany]
    have hwany : (({ db with workouts := db.workouts ++
        [⟨nextId (db.workouts.map (·.workout_id)), uid, st, en, some label⟩] } :
          Store).workouts.any
        (fun w => w.workout_id == nextId (db.workouts.map (·.workout_id)))) = true := by
      apply List.any_eq_true.mpr
      exact ⟨_, List.mem_append_right _ (List.mem_singleton.mpr rfl), by simp⟩
    have hexany : ¬((db.exercises.any
        fun e => e.exercise_id == s.exercise_id) = true) := by
      rw [List.any_eq_true]
      rintro ⟨e, he, heq⟩
      exact hex e he (by simpa using heq)
    have hcs : create_workout_set
        { db with workouts := db.workouts ++
          [⟨nextId (db.workouts.map (·.workout_id)), uid, st, en, some label⟩] }
        (nextId (db.workouts.map (·.workout_id))) s = .error "Exercise not found" := by
      rw [create_workout_set, if_pos hwany, if_neg hexany]
    rw [workout_form_save, if_neg hlb, hcw]
    exact postSets_cons_err _ _ _ _ _ hcs
  · have hmb : ¬((mname == "") = true) := by simp [hmname]
    have hcm : create_meal db uid t mname =
        .ok (⟨nextId (db.meals.map (·.meal_id)), uid, t, mname⟩,
          { db with meals := db.meals ++
            [⟨nextId (db.meals.map (·.meal_id)), uid, t, mname⟩] }) := by
      rw [create_meal, if_pos huany]
    have hmany : (({ db with meals := db.meals ++
        [⟨nextId (db.meals.map (·.meal_id)), uid, t, mname⟩] } : Store).meals.any
        (fun m => m.meal_id == nextId (db.meals.map (·.meal_id)))) = true := by
      apply List.any_eq_true.mpr
      exact ⟨_, List.mem_append_right _ (List.mem_singleton.mpr rfl), by simp⟩
    have hfoany : ¬((db.foods.any fun f => f.food_id == it.food_id) = true) := by
      rw [List.any_eq_true]
      rintro ⟨f, hf, heq⟩
      exact hfo f hf (by simpa using heq)
    have hci : create_meal_item
        { db with meals := db.meals ++
          [⟨nextId (db.meals.map (·.meal_id)), uid, t, mname⟩] }
        (nextId (db.meals.map (·.meal_id))) it = .error "Food not found" := by
      rw [create_meal_item, if_pos hmany, if_neg hfoany]
    rw [meal_form_save, if_neg hmb, hcm]
    exact postItems_cons_err _ _ _ _ _ hci

/-- C2 amended witness: in `c2store` (user 1, empty catalogs) the workout flow
persists exactly the Workout row and reports failure, and the meal flow
persists exactly the Meal row and reports failure. -/
theorem composite_create_not_atomic_witness :
    workout_form_save c2store 1 0 3600 "Push" [⟨5, 8, 100, 1⟩] =
      ({ c2store with workouts := c2store.workouts ++ [⟨1, 1, 0, 3600, some "Push"⟩] },
        false) ∧
    meal_form_save c2store 1 43200 "Lunch" [⟨7, 2⟩] =
      ({ c2store with meals := c2store.meals ++ [⟨1, 1, 43200, "Lunch"⟩] }, false) :=
  composite_create_not_atomic c2store 1 0 3600 43200 "Push" "Lunch"
    ⟨5, 8, 100, 1⟩ [] ⟨7, 2⟩ []
    ⟨⟨1, some "Ada", some "L", "ada@example.com", none⟩, by decide, rfl⟩
    (by decide) (by decide) (by decide) (by decide)

/-- C3 counterexample: the claim says a row is in the summary's window exactly
when its timestamp is at or after the absolute instant `now − lookback_days`.
With `now` one hour past midnight of day 10 and `lookback_days = 7`, the
instant is 01:00 of day 3; yet the code's window (main.py:482, 490) admits the
sleep row starting at 00:00 of day 3, whose timestamp is strictly before that
instant — the boundary day is included in full, not partially. -/
theorem cutoff_instant_cex :
    sleepFilter c3store 1 (cutoffDT c3now 7) = [c3sleep] ∧
    c3sleep.start_time < c3now - 86400 * 7 := by
  constructor
  · rfl
  · decide

/-- C3 amended: the cutoff of all three summary series is midnight (00:00 UTC)
of the calendar date of `now − lookback_days` (main.py:482 takes `.date()` and
recombines with `datetime.min.time()`): a row is included exactly when its
timestamp is at or after that midnight, which is at or before the instant
`now − lookback_days` and within one day of it, so the calendar day at the
window boundary is included in full. -/
theorem cutoff_is_floor_midnight (db : Store) (uid : Nat) (now days : Int)
    (s : Sleep) (w : Workout) (m : Meal) :
    (s ∈ sleepFilter db uid (cutoffDT now days) ↔
      s ∈ db.sleeps ∧ s.user_id = uid ∧ cutoffDT now days ≤ s.start_time) ∧
    (w ∈ workoutFilter db uid (cutoffDT now days) ↔
      w ∈ db.workouts ∧ w.user_id = uid ∧ cutoffDT now days ≤ w.start_time) ∧
    (m ∈ mealsInWindow db uid (cutoffDT now days) ↔
      m ∈ db.meals ∧ m.user_id = uid ∧ cutoffDT now days ≤ m.time_of_meal) ∧
    cutoffDT now days ≤ now - 86400 * days ∧
    now - 86400 * days < cutoffDT now days + 86400 := by
  refine ⟨?_, ?_, ?_, ?_, ?_⟩
  · rw [sleepFilter, List.mem_filter]
    simp [and_assoc]
  · rw [workoutFilter, List.mem_filter]
    simp [and_assoc]
  · rw [mealsInWindow, List.mem_filter]
    simp [and_assoc]
  · rw [cutoffDT, dateOf]; omega
  · rw [cutoffDT, dateOf]; omega

/-- C5: the calories-per-day series groups the in-window
Meal → MealItem → Food join rows by the calendar date of `time_of_meal`; each
emitted macro (calories, carbs, fats, protein) equals the sum of
`meal_item.quantity × food.macro` over all items of all meals of that date
(null sums coalesced to 0.0 — the output field is a plain number, never null);
there is a row exactly for each date with at least one join row, and rows are
strictly ascending by date. -/
theorem calories_per_day_spec (db : Store) (uid : Nat) (now days : Int) :
    List.Pairwise (fun r1 r2 : CaloriesPerDay => r1.date < r2.date)
      (caloriesFromRows (joinRows db uid (cutoffDT now days))) ∧
    (∀ r ∈ caloriesFromRows (joinRows db uid (cutoffDT now days)),
      r.calories = specDayMacro db uid (cutoffDT now days) r.date (fun f => f.calories) ∧
      r.carbs = specDayMacro db uid (cutoffDT now days) r.date (fun f => f.carbs) ∧
      r.fats = specDayMacro db uid (cutoffDT now days) r.date (fun f => f.fats) ∧
      r.protein = specDayMacro db uid (cutoffDT now days) r.date (fun f => f.protein)) ∧
    (∀ d : Int,
      (∃ r ∈ caloriesFromRows (joinRows db uid (cutoffDT now days)), r.date = d) ↔
      (∃ jr ∈ joinRows db uid (cutoffDT now days), dateOf jr.1.time_of_meal = d)) := by
  refine ⟨?_, ?_, ?_⟩
  · rw [caloriesFromRows, List.pairwise_map]
    exact (pairwise_groupKeys _).imp (fun h => h)
  · intro r hr
    rw [caloriesFromRows, List.mem_map] at hr
    obtain ⟨d, _, hd⟩ := hr
    subst hd
    refine ⟨?_, ?_, ?_, ?_⟩ <;>
      simp only [pyOr0_sqlSum] <;> exact grp_sum db uid (cutoffDT now days) d _
  · intro d
    rw [caloriesFromRows]
    constructor
    · rintro ⟨r, hr, hd⟩
      rw [List.mem_map] at hr
      obtain ⟨k, hk, hkr⟩ := hr
      have : r.date = k := by rw [← hkr]
      rw [mem_groupKeys, List.mem_map] at hk
      obtain ⟨jr, hjr, hjrk⟩ := hk
      exact ⟨jr, hjr, by rw [hjrk, ← this, hd]⟩
    · rintro ⟨jr, hjr, hd⟩
      refine ⟨_, List.mem_map_of_mem _ ((mem_groupKeys d _).mpr ?_), rfl⟩
      rw [List.mem_map]
      exact ⟨jr, hjr, hd⟩

/-- C6: the sleep series of the dashboard summary emits exactly one entry per
in-window Sleep row (so two rows on one date give two entries): the emitted
list is the image, under `date = start_time's calendar date` and
`hours = (end_time − start_time) seconds / 3600`, of a permutation of the
in-window rows that is sorted ascending by `start_time`. -/
theorem sleep_series_per_row (db : Store) (uid : Nat) (now days : Int) :
    List.Perm (sleepRowsSorted db uid (cutoffDT now days))
      (sleepFilter db uid (cutoffDT now days)) ∧
    (sleepRowsSorted db uid (cutoffDT now days)).Sorted sleepLe ∧
    sleepSeriesFromRows (sleepFilter db uid (cutoffDT now days)) =
      (sleepRowsSorted db uid (cutoffDT now days)).map
        (fun s => ⟨dateOf s.start_time,
          ((s.end_time - s.start_time : Int) : Rat) / 3600, s.quality_score⟩) ∧
    (sleepSeriesFromRows (sleepFilter db uid (cutoffDT now days))).length =
      (sleepFilter db uid (cutoffDT now days)).length := by
  refine ⟨List.perm_insertionSort _ _, List.sorted_insertionSort _ _, rfl, ?_⟩
  rw [sleepSeriesFromRows, List.length_map]
  exact (List.perm_insertionSort _ _).length_eq

/-- C10: per-user noninterference of the dashboard summary. If two stores agree
on all rows owned by user `uid` (their sleeps, workouts and meals, the items of
each of those meals) and on the Food catalog rows referenced by those items,
then — whatever the rows of other users or the rest of the catalog look like —
the summary computed for `uid` at the same instant and lookback window is
identical in both stores. -/
theorem summary_noninterference (db1 db2 : Store) (uid : Nat) (now days : Int)
    (hs : db1.sleeps.filter (fun s => s.user_id == uid) =
      db2.sleeps.filter (fun s => s.user_id == uid))
    (hw : db1.workouts.filter (fun w => w.user_id == uid) =
      db2.workouts.filter (fun w => w.user_id == uid))
    (hm : db1.meals.filter (fun m => m.user_id == uid) =
      db2.meals.filter (fun m => m.user_id == uid))
    (hitems : ∀ m ∈ db1.meals, m.user_id = uid →
      db1.meal_items.filter (fun mi => mi.meal_id == m.meal_id) =
      db2.meal_items.filter (fun mi => mi.meal_id == m.meal_id))
    (hfoods : ∀ m ∈ db1.meals, m.user_id = uid →
      ∀ mi ∈ db1.meal_items, mi.meal_id = m.meal_id →
      db1.foods.filter (fun f => f.food_id == mi.food_id) =
      db2.foods.filter (fun f => f.food_id == mi.food_id)) :
    user_summary db1 uid now days = user_summary db2 uid now days := by
  have hsf : sleepFilter db1 uid (cutoffDT now days) =
      sleepFilter db2 uid (cutoffDT now days) :=
    filter_and_congr _ _ _ _ hs
  have hwf : workoutFilter db1 uid (cutoffDT now days) =
      workoutFilter db2 uid (cutoffDT now days) :=
    filter_and_congr _ _ _ _ hw
  have hmw : mealsInWindow db1 uid (cutoffDT now days) =
      mealsInWindow db2 uid (cutoffDT now days) :=
    filter_and_congr _ _ _ _ hm
  have hjoin : joinRows db1 uid (cutoffDT now days) =
      joinRows db2 uid (cutoffDT now days) := by
    rw [joinRows, joinRows, ← hmw]
    apply flatMap_congr
    intro m hm1
    have hmm : m ∈ db1.meals ∧ m.user_id = uid := by
      have h0 := List.mem_filter.mp hm1
      refine ⟨h0.1, ?_⟩
      have hb := h0.2
      simp only [Bool.and_eq_true, beq_iff_eq] at hb
      exact hb.1
    rw [mealRows, mealRows, ← hitems m hmm.1 hmm.2]
    apply flatMap_congr
    intro mi hmi
    have hmim : mi ∈ db1.meal_items ∧ mi.meal_id = m.meal_id := by
      have h0 := List.mem_filter.mp hmi
      refine ⟨h0.1, ?_⟩
      have hb := h0.2
      simpa using hb
    rw [hfoods m hmm.1 hmm.2 mi hmim.1 hmim.2]
  rw [user_summary, user_summary, hsf, hwf, hjoin]

/-- A store for the noninterference witness: user 1 owns one sleep and one
meal with one item referencing food 1. -/
def c10storeA : Store :=
  ⟨[⟨1, some "Ada", some "L", "ada@example.com", none⟩,
    ⟨2, none, none, "bob@example.com", none⟩],
    [⟨1, 1, 9 * 86400, 9 * 86400 + 28800, some 7⟩], [], [], [],
    [⟨1, "Chicken Breast", 165, 0, 4, 31, 0, "protein", 100⟩],
    [⟨1, 1, 9 * 86400 + 43200, "Lunch"⟩],
    [⟨1, 1, 1, 2⟩]⟩

/-- The same store with user 2's rows changed arbitrarily (an extra sleep and
meal of user 2, an extra item of user 2's meal, an extra unreferenced food, and
a different users table). -/
def c10storeB : Store :=
  ⟨[],
    [⟨1, 1, 9 * 86400, 9 * 86400 + 28800, some 7⟩,
     ⟨2, 2, 8 * 86400, 8 * 86400 + 3600, none⟩], [], [], [],
    [⟨1, "Chicken Breast", 165, 0, 4, 31, 0, "protein", 100⟩,
     ⟨2, "Rice", 130, 28, 0, 2, 0, "carb", 100⟩],
    [⟨1, 1, 9 * 86400 + 43200, "Lunch"⟩,
     ⟨2, 2, 9 * 86400 + 50000, "Dinner"⟩],
    [⟨1, 1, 1, 2⟩, ⟨2, 2, 2, 1⟩]⟩

/-- C10 witness: `c10storeA` and `c10storeB` agree on user 1's rows and the
food they reference but differ everywhere else; user 1's summary is
identical. -/
theorem summary_noninterference_witness :
    user_summary c10storeA 1 c3now 7 = user_summary c10storeB 1 c3now 7 :=
  summary_noninterference c10storeA c10storeB 1 c3now 7
    (by decide) (by decide) (by decide) (by decide) (by decide)

end Workoutify
